import Mathlib

/-!
Shallow embedding of the email-verification token workflow of the
project_log repository (Streamlit + MongoDB student progress-log portal).

The embedded code lives in:
  - src/utils/database.py        (MongoDB CRUD: create_log, check_existing_log,
                                  update_log_verification_token, verify_log)
  - src/utils/email_sender.py    (generate_verification_token, send_verification_email)
  - src/pages/5_Verify.py        (query-param validation and redemption page)
  - src/pages/1_Submit_Log.py    (log_submission_form submission flow)

Modelling conventions:
  - A MongoDB collection of log documents is a `List LogEntry`; `find_one`
    is `List.find?` (first match in insertion order) and `update_one` is
    `updateOne` below (rewrite the first matching document).
  - Status fields are kept as the same free-form strings the code stores
    ("pending", "approved", "rejected").
  - `datetime.now()` is an explicit `now : Nat` parameter; the random bytes
    behind `secrets.token_urlsafe` are an explicit `List Nat` parameter;
    SMTP success or failure is an explicit `Bool` parameter.
-/

namespace ProjectLog

/-- A student document, as inserted by `create_student` in src/utils/database.py
(the password and department fields play no role in the token workflow and are
omitted). -/
structure Student where
  username : String
  name : String
  email : String
  supervisor_email : String
deriving Repr, DecidableEq

/-- A log document, with exactly the fields written by `create_log` in
src/utils/database.py (lines 209-219).  `id` stands for the Mongo ObjectId. -/
structure LogEntry where
  id : Nat
  student_username : String
  student_name : String
  student_email : String
  supervisor_email : String
  week_number : Nat
  content : String
  submitted_at : Nat
  verified : String
  verification_token : Option String
deriving Repr, DecidableEq

/-- The database state: the `students` and `logs` collections, plus the next
fresh ObjectId handed out by `insert_one`. -/
structure DB where
  students : List Student
  logs : List LogEntry
  nextId : Nat
deriving Repr, DecidableEq

/-- Mongo `update_one`: rewrite the first document matching the filter `p`
with the update `f`; all other documents are untouched. -/
def updateOne (p : LogEntry → Bool) (f : LogEntry → LogEntry) : List LogEntry → List LogEntry
  | [] => []
  | l :: ls => if p l then f l :: ls else l :: updateOne p f ls

/-- `get_student_by_username` (src/utils/database.py lines 151-162). -/
def get_student_by_username (db : DB) (username : String) : Option Student :=
  db.students.find? (fun s => s.username == username)

/-- The document `create_log` inserts (src/utils/database.py lines 209-219):
status "pending", no token bound yet, identity fields copied from the
student document. -/
def newLogEntry (db : DB) (student : Student) (student_username : String)
    (week_number : Nat) (content : String) (now : Nat) : LogEntry :=
  { id := db.nextId
    student_username := student_username
    student_name := student.name
    student_email := student.email
    supervisor_email := student.supervisor_email
    week_number := week_number
    content := content
    submitted_at := now
    verified := "pending"
    verification_token := none }

/-- `create_log` (src/utils/database.py lines 190-222): looks the student up,
raises ValueError when absent, otherwise inserts a fresh document with
`verified = "pending"` and `verification_token = None` and returns its id. -/
def create_log (db : DB) (student_username : String) (week_number : Nat)
    (content : String) (now : Nat) : Except String (Nat × DB) :=
  match get_student_by_username db student_username with
  | none => .error "Student not found"
  | some student =>
      .ok (db.nextId,
        { db with
            logs := db.logs ++ [newLogEntry db student student_username week_number content now]
            nextId := db.nextId + 1 })

/-- `update_log_verification_token` (src/utils/database.py lines 255-268):
`update_one({_id}, {$set: {verification_token: token}})` — a single `$set`
on the document matched by id, with no condition on the current field value. -/
def update_log_verification_token (db : DB) (log_id : Nat) (token : String) : DB :=
  { db with
      logs := updateOne (fun l => l.id == log_id)
                (fun l => { l with verification_token := some token }) db.logs }

/-- `verify_log` (src/utils/database.py lines 271-291): `find_one` on the
token, and when a document is found, `update_one` on the same token filter
setting `verified := status`; the document bound before the update is
returned.  Note the code sets only `verified` — it does not clear
`verification_token` and does not condition on the current status. -/
def verify_log (db : DB) (token status : String) : Option LogEntry × DB :=
  match db.logs.find? (fun l => l.verification_token == some token) with
  | some log =>
      (some log,
        { db with
            logs := updateOne (fun l => l.verification_token == some token)
                      (fun l => { l with verified := status }) db.logs })
  | none => (none, db)

/-- `check_existing_log` (src/utils/database.py lines 337-352): `find_one`
on the (student_username, week_number) pair. -/
def check_existing_log (db : DB) (student_username : String) (week_number : Nat) :
    Option LogEntry :=
  db.logs.find? (fun l => l.student_username == student_username && l.week_number == week_number)

/-! ### src/utils/email_sender.py -/

/-- The 64-character base64url alphabet used by `base64.urlsafe_b64encode`,
which underlies `secrets.token_urlsafe`. -/
def b64Alphabet : List Char :=
  ['A', 'B', 'C', 'D', 'E', 'F', 'G', 'H', 'I', 'J', 'K', 'L', 'M',
   'N', 'O', 'P', 'Q', 'R', 'S', 'T', 'U', 'V', 'W', 'X', 'Y', 'Z',
   'a', 'b', 'c', 'd', 'e', 'f', 'g', 'h', 'i', 'j', 'k', 'l', 'm',
   'n', 'o', 'p', 'q', 'r', 's', 't', 'u', 'v', 'w', 'x', 'y', 'z',
   '0', '1', '2', '3', '4', '5', '6', '7', '8', '9', '-', '_']

/-- The character encoding a single 6-bit group. -/
def sextetChar (n : Nat) : Char :=
  b64Alphabet.getD n (Char.ofNat 63)

/-- The 6-bit value a base64url character decodes to (inverse of `sextetChar`
on the alphabet). -/
def sextetVal (c : Char) : Nat :=
  b64Alphabet.findIdx (fun d => d == c)

/-- A character safe for inclusion in a URL query string without escaping:
alphanumeric, dash or underscore (the base64url alphabet). -/
def isUrlSafeChar (c : Char) : Bool :=
  c.isAlphanum || c == '-' || c == '_'

/-- Base64 6-bit grouping of a byte string, with the `=` padding stripped,
exactly as `base64.urlsafe_b64encode(..).rstrip(b"=")` produces it: each
3-byte group yields 4 sextets, a trailing 2-byte group yields 3 sextets and
a trailing single byte yields 2 sextets. -/
def b64Sextets : List Nat → List Nat
  | a :: b :: c :: rest =>
      a / 4 :: ((a % 4) * 16 + b / 16) :: ((b % 16) * 4 + c / 64) :: (c % 64) ::
        b64Sextets rest
  | [a, b] => [a / 4, (a % 4) * 16 + b / 16, (b % 16) * 4]
  | [a] => [a / 4, (a % 4) * 16]
  | [] => []

/-- Decoder for the padding-stripped grouping above; used to prove that the
encoding loses no information. -/
def b64Decode : List Nat → List Nat
  | s1 :: s2 :: s3 :: s4 :: rest =>
      (s1 * 4 + s2 / 16) :: ((s2 % 16) * 16 + s3 / 4) :: ((s3 % 4) * 64 + s4) ::
        b64Decode rest
  | [s1, s2, s3] => [s1 * 4 + s2 / 16, (s2 % 16) * 16 + s3 / 4]
  | [s1, s2] => [s1 * 4 + s2 / 16]
  | _ => []

/-- `secrets.token_urlsafe` applied to a given byte string: base64url-encode
and strip the padding. -/
def token_urlsafe (bytes : List Nat) : String :=
  String.mk ((b64Sextets bytes).map sextetChar)

/-- `generate_verification_token` (src/utils/email_sender.py lines 15-25):
`secrets.token_urlsafe(32)`.  The 32 random bytes drawn from the secure
source are an explicit parameter; the function is the deterministic encoding
applied to them. -/
def generate_verification_token (randomBytes : List Nat) : String :=
  token_urlsafe randomBytes

/-- `send_verification_email` (src/utils/email_sender.py lines 28-174).
The token (already generated from the random bytes) is stored on the log
first; only then are the mail credentials checked and the SMTP send
attempted.  An SMTP exception is caught by the surrounding try/except and
returned as `(False, message)` — the token write is never undone.
`credsOk` models whether GMAIL_USER/GMAIL_APP_PASSWORD are configured and
`smtpOk` whether the SMTP send succeeds. -/
def send_verification_email (db : DB) (log_id : Nat) (token : String)
    (credsOk smtpOk : Bool) : Bool × String × DB :=
  let db1 := update_log_verification_token db log_id token
  if !credsOk then (false, "Email credentials not configured in secrets", db1)
  else if smtpOk then (true, "Verification email sent to supervisor", db1)
  else (false, "Failed to send email", db1)

/-! ### src/pages/5_Verify.py -/

/-- What the verification page renders. -/
inductive VerifyOutcome where
  | invalidLink
  | invalidAction
  | verificationFailed
  | approvedConfirmation (log : LogEntry)
  | rejectedConfirmation (log : LogEntry)
deriving Repr, DecidableEq

/-- Python truthiness of `query_params.get(..., None)`: `None` and the empty
string are falsy. -/
def truthy : Option String → Bool
  | none => false
  | some s => s != ""

/-- The top-level flow of src/pages/5_Verify.py (lines 19-105): reject when
token or action is missing, then when the action is outside
`{approved, rejected}`, and only otherwise call `verify_log`.  The final
`Bool` records whether `verify_log` (the only storage access) was invoked. -/
def verify_page (db : DB) (token action : Option String) :
    VerifyOutcome × DB × Bool :=
  if !truthy token || !truthy action then (.invalidLink, db, false)
  else
    let t := token.getD ""
    let a := action.getD ""
    if a != "approved" && a != "rejected" then (.invalidAction, db, false)
    else
      match verify_log db t a with
      | (none, db1) => (.verificationFailed, db1, true)
      | (some log, db1) =>
          (if a == "approved" then .approvedConfirmation log
           else .rejectedConfirmation log, db1, true)

/-! ### src/pages/1_Submit_Log.py -/

/-- Whitespace recognized by the model of Python str.strip. -/
def isSpaceChar (c : Char) : Bool :=
  c == ' ' || c == '\t' || c == '\n' || c == '\r'

/-- Model of Python str.strip(): drop leading and trailing whitespace. -/
def strip (s : String) : String :=
  String.mk (((s.data.dropWhile isSpaceChar).reverse.dropWhile isSpaceChar).reverse)

/-- What the submit handler produces for the student (`renderedOnly` is the
run of the script in which the button was not clicked, so the `if
submit_button:` block is skipped). -/
inductive SubmitOutcome where
  | renderedOnly
  | contentTooShort
  | submitError (msg : String)
  | submitted (msg : String)
  | savedWithEmailWarning (msg : String)
deriving Repr, DecidableEq

/-- One run of the script of src/pages/1_Submit_Log.py (lines 60-154).
`week_number` and `log_content` are the form values delivered to this run;
`clicked` is what `st.form_submit_button` returns, i.e. whether the button
was pressed in the browser against the previously rendered frame.

The run computes `existing = check_existing_log(...)` for the delivered
week and renders the already-submitted warning when it is some (the first
component of the result).  The handler under `if submit_button:` (lines
105-112) validates only the content length and then calls `create_log` —
it never consults `existing`; the duplicate check feeds only the rendered
warning and the `disabled` flag of the NEXT frame's button. -/
def log_submission_form (db : DB) (username : String) (week_number : Nat)
    (log_content : String) (now : Nat) (token : String) (clicked : Bool)
    (credsOk smtpOk : Bool) : Option LogEntry × SubmitOutcome × DB :=
  let existing := check_existing_log db username week_number
  if clicked then
    if (strip log_content).length < 50 then (existing, .contentTooShort, db)
    else
      match create_log db username week_number (strip log_content) now with
      | .error e => (existing, .submitError e, db)
      | .ok (log_id, db1) =>
          match send_verification_email db1 log_id token credsOk smtpOk with
          | (true, msg, db2) => (existing, .submitted msg, db2)
          | (false, msg, db2) => (existing, .savedWithEmailWarning msg, db2)
  else (existing, .renderedOnly, db)

/-- A full submit interaction across two Streamlit frames.  In the render
frame the form showed `week_render`, and the submit button was rendered with
`disabled = existing_log is not None` computed for that value; a click can
only be delivered from an enabled button.  Edits inside an `st.form` do not
rerun the script, so the user may change the week field to `week_submit`
before clicking; the processing frame then receives `week_submit` with
`clicked = true`.  When the button was disabled no click is delivered and
the next run only re-renders. -/
def submit_interaction (db : DB) (username : String)
    (week_render week_submit : Nat) (log_content : String) (now : Nat)
    (token : String) (credsOk smtpOk : Bool) :
    Option LogEntry × SubmitOutcome × DB :=
  let disabled := (check_existing_log db username week_render).isSome
  log_submission_form db username week_submit log_content now token
    (!disabled) credsOk smtpOk

/-! ### Concrete fixtures used by the closed theorems below -/

/-- A sample student. -/
def demoStudent : Student :=
  { username := "s1", name := "Ada Lovelace", email := "ada@uni.edu",
    supervisor_email := "sup@uni.edu" }

/-- A sample pending log with token "tok1" bound, as left by a submission
followed by token issuance. -/
def demoLog : LogEntry :=
  { id := 1, student_username := "s1", student_name := "Ada Lovelace",
    student_email := "ada@uni.edu", supervisor_email := "sup@uni.edu",
    week_number := 5,
    content := "This week I designed the database schema and implemented the endpoints.",
    submitted_at := 100, verified := "pending", verification_token := some "tok1" }

/-- A sample database holding the student and the pending log. -/
def demoDB : DB :=
  { students := [demoStudent], logs := [demoLog], nextId := 2 }

/-- The same database after the log was approved, token still bound (as
`verify_log` actually leaves it). -/
def demoDBApproved : DB :=
  { students := [demoStudent],
    logs := [{ demoLog with verified := "approved" }], nextId := 2 }

/-! ## Helper lemmas about the embedded Mongo operations -/

/-- `update_one` on a filter no document matches is the identity. -/
theorem updateOne_of_forall_not (p : LogEntry → Bool) (f : LogEntry → LogEntry) :
    ∀ xs : List LogEntry, (∀ x ∈ xs, p x = false) → updateOne p f xs = xs := by
  intro xs
  induction xs with
  | nil => intro _; rfl
  | cons a as ih =>
      intro h
      have ha := h a (List.mem_cons_self a as)
      simp only [updateOne, ha, if_neg]
      simp only [Bool.false_eq_true, if_false, List.cons.injEq, true_and]
      exact ih (fun x hx => h x (List.mem_cons_of_mem a hx))

/-- When the update `f` preserves the filter `p`, `find?` after `update_one`
returns the updated first match. -/
theorem find?_updateOne_self (p : LogEntry → Bool) (f : LogEntry → LogEntry)
    (hpf : ∀ l, p l = true → p (f l) = true) :
    ∀ xs : List LogEntry, (updateOne p f xs).find? p = (xs.find? p).map f := by
  intro xs
  induction xs with
  | nil => rfl
  | cons a as ih =>
      by_cases ha : p a
      · simp only [updateOne, ha, if_true, List.find?_cons_of_pos _ (hpf a ha),
          List.find?_cons_of_pos _ ha]
        rfl
      · simp only [updateOne, ha, Bool.false_eq_true, if_false,
          List.find?_cons_of_neg _ ha]
        exact ih

/-- `update_one` leaves a block of non-matching documents at the front alone. -/
theorem updateOne_append_left (p : LogEntry → Bool) (f : LogEntry → LogEntry)
    (ys : List LogEntry) :
    ∀ xs : List LogEntry, (∀ x ∈ xs, p x = false) →
      updateOne p f (xs ++ ys) = xs ++ updateOne p f ys := by
  intro xs
  induction xs with
  | nil => intro _; rfl
  | cons a as ih =>
      intro h
      have ha := h a (List.mem_cons_self a as)
      simp only [List.cons_append, updateOne, ha, Bool.false_eq_true, if_false,
        List.cons.injEq, true_and]
      exact ih (fun x hx => h x (List.mem_cons_of_mem a hx))

/-- `find?` skips a block of non-matching documents at the front. -/
theorem find?_append_left (p : LogEntry → Bool) (ys : List LogEntry) :
    ∀ xs : List LogEntry, (∀ x ∈ xs, p x = false) →
      (xs ++ ys).find? p = ys.find? p := by
  intro xs
  induction xs with
  | nil => intro _; rfl
  | cons a as ih =>
      intro h
      have ha := h a (List.mem_cons_self a as)
      simp only [List.cons_append, List.find?_cons, ha, Bool.false_eq_true, if_false]
      exact ih (fun x hx => h x (List.mem_cons_of_mem a hx))

/-- After `update_one` whose filter `p` has at most one match and whose
update erases the property `q` (a property only `p`-documents can have), no
document satisfies `q` any more. -/
theorem updateOne_clears (p q : LogEntry → Bool) (f : LogEntry → LogEntry)
    (hf : ∀ x, q (f x) = false) :
    ∀ xs : List LogEntry, (∀ x ∈ xs, q x = true → p x = true) →
      xs.countP p ≤ 1 → ∀ x ∈ updateOne p f xs, q x = false := by
  intro xs
  induction xs with
  | nil => intro _ _ x hx; cases hx
  | cons a as ih =>
      intro hqp hcount x hx
      by_cases hpa : p a
      · simp only [updateOne, hpa, if_true] at hx
        rcases List.mem_cons.mp hx with rfl | hx
        · exact hf a
        · have hzero : as.countP p = 0 := by
            have := List.countP_cons_of_pos p (l := as) hpa
            omega
          have hnp : ¬ p x = true := (List.countP_eq_zero).mp hzero x hx
          cases hq : q x
          · rfl
          · exact absurd (hqp x (List.mem_cons_of_mem a hx) hq) hnp
      · simp only [updateOne, hpa, Bool.false_eq_true, if_false] at hx
        rcases List.mem_cons.mp hx with hxa | hx
        · subst hxa
          cases hq : q x
          · rfl
          · exact absurd (hqp x (List.mem_cons_self x as) hq) hpa
        · have hle : as.countP p ≤ 1 := by
            have := List.countP_cons_of_neg p (l := as) (by exact hpa)
            omega
          exact ih (fun y hy => hqp y (List.mem_cons_of_mem a hy)) hle x hx

/-- Reduction of a clicked submission run with valid content and a present
student: the handler inserts the log and binds the token to it regardless of
what the duplicate check found (its result is only passed through as the
rendered warning); the outcome depends only on the mail capability. -/
theorem log_submission_form_clicked (db : DB) (username : String) (week : Nat)
    (content : String) (now : Nat) (token : String) (credsOk smtpOk : Bool)
    (s : Student)
    (hlen : ¬ (strip content).length < 50)
    (hstu : get_student_by_username db username = some s) :
    log_submission_form db username week content now token true credsOk smtpOk
      = (check_existing_log db username week,
         (if credsOk && smtpOk then
            SubmitOutcome.submitted "Verification email sent to supervisor"
          else if credsOk then
            SubmitOutcome.savedWithEmailWarning "Failed to send email"
          else
            SubmitOutcome.savedWithEmailWarning
              "Email credentials not configured in secrets"),
         update_log_verification_token
           { db with
               logs := db.logs ++ [newLogEntry db s username week (strip content) now]
               nextId := db.nextId + 1 } db.nextId token) := by
  unfold log_submission_form create_log send_verification_email
  rw [hstu]
  simp only [if_true, hlen, Bool.false_eq_true, if_false]
  cases credsOk <;> cases smtpOk <;> rfl

/-! ## Helper lemmas about the token encoding -/

/-- Decoding a base64url character recovers the 6-bit value it encodes. -/
theorem sextetVal_sextetChar : ∀ n : Fin 64, sextetVal (sextetChar n.val) = n.val := by
  decide

/-- All 64 alphabet characters are URL-safe. -/
theorem isUrlSafe_sextetChar : ∀ n : Fin 64, isUrlSafeChar (sextetChar n.val) = true := by
  decide

/-- The padding-stripped grouping of `n` bytes has `4 * (n / 3)` sextets
plus `0`, `2` or `3` for a remainder of `0`, `1` or `2` bytes. -/
theorem b64Sextets_length : ∀ xs : List Nat, (b64Sextets xs).length
    = 4 * (xs.length / 3) + (if xs.length % 3 = 0 then 0 else xs.length % 3 + 1) := by
  intro xs
  induction xs using b64Sextets.induct with
  | case1 a b c rest ih =>
      simp only [b64Sextets, List.length_cons]
      rw [ih]
      by_cases h : rest.length % 3 = 0
      · rw [if_pos h, if_pos (by omega)]
        omega
      · rw [if_neg h, if_neg (by omega)]
        omega
  | case2 a b => simp [b64Sextets]
  | case3 a => simp [b64Sextets]
  | case4 => simp [b64Sextets]

/-- The grouping of a byte string produces only 6-bit values. -/
theorem b64Sextets_lt : ∀ xs : List Nat, (∀ b ∈ xs, b < 256) →
    ∀ s ∈ b64Sextets xs, s < 64 := by
  intro xs
  induction xs using b64Sextets.induct with
  | case1 a b c rest ih =>
      intro hb s hs
      simp only [b64Sextets, List.mem_cons] at hs
      have ha1 : a < 256 := hb a (by simp)
      have hb1 : b < 256 := hb b (by simp)
      have hc1 : c < 256 := hb c (by simp)
      rcases hs with rfl | rfl | rfl | rfl | hs
      · omega
      · omega
      · omega
      · omega
      · exact ih (fun x hx => hb x (by simp [hx])) s hs
  | case2 a b =>
      intro hb s hs
      have ha1 : a < 256 := hb a (by simp)
      have hb1 : b < 256 := hb b (by simp)
      simp only [b64Sextets, List.mem_cons] at hs
      rcases hs with rfl | rfl | rfl | hs
      · omega
      · omega
      · omega
      · cases hs
  | case3 a =>
      intro hb s hs
      have ha1 : a < 256 := hb a (by simp)
      simp only [b64Sextets, List.mem_cons] at hs
      rcases hs with rfl | rfl | hs
      · omega
      · omega
      · cases hs
  | case4 =>
      intro _ s hs
      cases hs

/-- The grouping loses no information: the decoder recovers the bytes. -/
theorem b64Decode_b64Sextets : ∀ xs : List Nat, (∀ b ∈ xs, b < 256) →
    b64Decode (b64Sextets xs) = xs := by
  intro xs
  induction xs using b64Sextets.induct with
  | case1 a b c rest ih =>
      intro hb
      have ha1 : a < 256 := hb a (by simp)
      have hb1 : b < 256 := hb b (by simp)
      have hc1 : c < 256 := hb c (by simp)
      simp only [b64Sextets, b64Decode]
      rw [ih (fun x hx => hb x (by simp [hx]))]
      have e1 : a / 4 * 4 + (a % 4 * 16 + b / 16) / 16 = a := by omega
      have e2 : (a % 4 * 16 + b / 16) % 16 * 16 + ((b % 16) * 4 + c / 64) / 4 = b := by
        omega
      have e3 : ((b % 16) * 4 + c / 64) % 4 * 64 + c % 64 = c := by omega
      rw [e1, e2, e3]
  | case2 a b =>
      intro hb
      have ha1 : a < 256 := hb a (by simp)
      have hb1 : b < 256 := hb b (by simp)
      simp only [b64Sextets, b64Decode]
      have e1 : a / 4 * 4 + (a % 4 * 16 + b / 16) / 16 = a := by omega
      have e2 : (a % 4 * 16 + b / 16) % 16 * 16 + b % 16 * 4 / 4 = b := by omega
      rw [e1, e2]
  | case3 a =>
      intro hb
      have ha1 : a < 256 := hb a (by simp)
      simp only [b64Sextets, b64Decode]
      have e1 : a / 4 * 4 + a % 4 * 16 / 16 = a := by omega
      rw [e1]
  | case4 =>
      intro _
      rfl

/-- Mapping back through `sextetVal` undoes `sextetChar` on 6-bit values. -/
theorem map_sextetVal_sextetChar : ∀ zs : List Nat, (∀ z ∈ zs, z < 64) →
    (zs.map sextetChar).map sextetVal = zs := by
  intro zs
  induction zs with
  | nil => intro _; rfl
  | cons z zs ih =>
      intro h
      simp only [List.map_cons, List.cons.injEq]
      exact ⟨sextetVal_sextetChar ⟨z, h z (by simp)⟩,
        ih (fun x hx => h x (by simp [hx]))⟩

/-! ## Theorems for the claims -/

/-- C1: the claim states that redeeming a pending log's token with
action=approved sets the status to approved AND clears the
verification_token field to null.  At the concrete pending log bound to
"tok1", `verify_log` does set the status to "approved" but leaves
`verification_token` still bound to "tok1" — the field is never cleared,
so the second half of the claim fails on the code. -/
theorem C1_token_not_cleared :
    ((verify_log demoDB "tok1" "approved").2.logs.find? (fun l => l.id == 1)).map
        (fun l => (l.verified, l.verification_token))
      = some ("approved", some "tok1") := by
  decide

/-- C2: the claim states that a second redemption of an already-redeemed
token returns the not-found outcome and leaves the status unchanged.  On the
code, after redeeming "tok1" with approved, a second redemption of "tok1"
with rejected again finds the log (the token was never cleared), returns it,
and overwrites the status to "rejected" — both halves of the claim fail. -/
theorem C2_replay_succeeds :
    (verify_log demoDB "tok1" "approved").1.isSome = true ∧
    (verify_log (verify_log demoDB "tok1" "approved").2 "tok1" "rejected").1.isSome = true ∧
    ((verify_log (verify_log demoDB "tok1" "approved").2 "tok1" "rejected").2.logs.find?
        (fun l => l.id == 1)).map (fun l => l.verified)
      = some "rejected" := by
  decide

/-- C3: the claim states that the redeem transition is a single conditional
storage write, so that of two redemption attempts on the same token exactly
one transitions and the other observes not-found.  `verify_log` is in fact a
caller-side `find_one` followed by `update_one`, and the update clears
nothing: under the sequential schedule of two attempts on "tok1" (one
admissible interleaving of the two concurrent attempts) both attempts find
the log and both perform the status write — neither observes not-found. -/
theorem C3_both_attempts_observe_found :
    (verify_log demoDB "tok1" "approved").1 = some demoLog ∧
    (verify_log (verify_log demoDB "tok1" "approved").2 "tok1" "approved").1
      = some { demoLog with verified := "approved" } := by
  decide

/-- C4: the claim states that approved and rejected are terminal statuses.
On the code, a log already in status "approved" whose token is still bound
(which is how `verify_log` leaves every redeemed log) moves to "rejected"
when its token is redeemed again — the approved-to-rejected transition is
reachable, so approved is not terminal. -/
theorem C4_approved_not_terminal :
    ((verify_log demoDBApproved "tok1" "rejected").2.logs.find? (fun l => l.id == 1)).map
        (fun l => l.verified)
      = some "rejected" := by
  decide

/-- C5: a verification request whose token or action parameter is missing
(or Python-falsy), or whose action lies outside {approved, rejected}, is
rejected by the page before any storage access: the database is returned
unchanged, the storage-access flag is false (`verify_log` was never
invoked), and the rendered outcome is one of the two rejection messages. -/
theorem C5_rejected_before_storage (db : DB) (token action : Option String)
    (h : truthy token = false ∨ truthy action = false ∨
      ∃ a, action = some a ∧ a ≠ "approved" ∧ a ≠ "rejected") :
    (verify_page db token action).2.1 = db ∧
    (verify_page db token action).2.2 = false ∧
    ((verify_page db token action).1 = VerifyOutcome.invalidLink ∨
      (verify_page db token action).1 = VerifyOutcome.invalidAction) := by
  unfold verify_page
  rcases h with h | h | ⟨a, rfl, h1, h2⟩
  · simp [h]
  · simp [h]
  · by_cases htok : truthy token
    · by_cases ha : truthy (some a)
      · have hne : (a != "approved" && a != "rejected") = true := by
          simp only [Bool.and_eq_true, bne_iff_ne]
          exact ⟨h1, h2⟩
        simp [htok, ha, hne]
      · simp [ha]
    · simp [htok]

/-- C5 witness: the concrete request `token=tok1&action=maybe` against the
demo database is rejected with the database untouched and no storage
access. -/
theorem C5_witness :
    (verify_page demoDB (some "tok1") (some "maybe")).2.1 = demoDB ∧
    (verify_page demoDB (some "tok1") (some "maybe")).2.2 = false ∧
    ((verify_page demoDB (some "tok1") (some "maybe")).1 = VerifyOutcome.invalidLink ∨
      (verify_page demoDB (some "tok1") (some "maybe")).1 = VerifyOutcome.invalidAction) :=
  C5_rejected_before_storage demoDB (some "tok1") (some "maybe")
    (Or.inr (Or.inr ⟨"maybe", rfl, by decide, by decide⟩))

/-- C7: on a successful redemption, the value `verify_log` returns is
exactly the document bound at the single `find_one` lookup — the full
pre-transition snapshot with all its identity-bearing fields (student name,
student email, week number, submission time, content) and its pre-transition
status — while the stored document was updated to the new status; in
particular the returned value is not a re-fetch of the post-update state. -/
theorem C7_pre_transition_snapshot (db : DB) (token status : String) (log : LogEntry)
    (h : db.logs.find? (fun l => l.verification_token == some token) = some log) :
    (verify_log db token status).1 = some log ∧
    (verify_log db token status).2.logs.find?
        (fun l => l.verification_token == some token)
      = some { log with verified := status } := by
  unfold verify_log
  rw [h]
  refine ⟨rfl, ?_⟩
  have := find?_updateOne_self (fun l => l.verification_token == some token)
    (fun l => { l with verified := status }) (fun l hl => hl) db.logs
  simp only [this, h, Option.map_some]
  rfl

/-- C7 witness: redeeming "tok1" on the demo database returns the pending
snapshot `demoLog` while the store now holds the approved version. -/
theorem C7_witness :
    (verify_log demoDB "tok1" "approved").1 = some demoLog ∧
    (verify_log demoDB "tok1" "approved").2.logs.find?
        (fun l => l.verification_token == some "tok1")
      = some { demoLog with verified := "approved" } :=
  C7_pre_transition_snapshot demoDB "tok1" "approved" demoLog (by decide)

/-- C8: once the token is persisted onto the log, a mail-send failure
(missing credentials or SMTP error) does not roll the issuance back: the
submission flow reports the saved-with-warning outcome (not an error), the
inserted log is still stored with the token bound to it, and that token is
still redeemable through `verify_log`. -/
theorem C8_mail_failure_no_rollback (db : DB) (username : String) (week : Nat)
    (content : String) (now : Nat) (token : String) (credsOk smtpOk : Bool)
    (s : Student)
    (hlen : ¬ (strip content).length < 50)
    (hstu : get_student_by_username db username = some s)
    (hfail : credsOk = false ∨ smtpOk = false)
    (hfresh : ∀ l ∈ db.logs, (l.id == db.nextId) = false)
    (htok : ∀ l ∈ db.logs, (l.verification_token == some token) = false) :
    (∃ msg, (log_submission_form db username week content now token true credsOk smtpOk).2.1
        = SubmitOutcome.savedWithEmailWarning msg) ∧
    (log_submission_form db username week content now token true credsOk
        smtpOk).2.2.logs.find? (fun l => l.id == db.nextId)
      = some { newLogEntry db s username week (strip content) now with
                 verification_token := some token } ∧
    (verify_log (log_submission_form db username week content now token true credsOk
        smtpOk).2.2 token "approved").1
      = some { newLogEntry db s username week (strip content) now with
                 verification_token := some token } := by
  rw [log_submission_form_clicked db username week content now token credsOk smtpOk s
    hlen hstu]
  have hlogs : updateOne (fun l => l.id == db.nextId)
      (fun l => { l with verification_token := some token })
      (db.logs ++ [newLogEntry db s username week (strip content) now])
      = db.logs ++ [{ newLogEntry db s username week (strip content) now with
                        verification_token := some token }] := by
    rw [updateOne_append_left _ _ _ db.logs hfresh]
    simp [updateOne, newLogEntry]
  refine ⟨?_, ?_, ?_⟩
  · rcases hfail with h | h
    · subst h
      exact ⟨"Email credentials not configured in secrets", by simp⟩
    · subst h
      cases credsOk
      · exact ⟨"Email credentials not configured in secrets", by simp⟩
      · exact ⟨"Failed to send email", by simp⟩
  · dsimp only
    unfold update_log_verification_token
    dsimp only
    rw [hlogs, find?_append_left _ _ db.logs hfresh]
    simp [newLogEntry]
  · dsimp only
    unfold verify_log update_log_verification_token
    dsimp only
    rw [hlogs, find?_append_left _ _ db.logs htok]
    simp [newLogEntry]

/-- C8 witness: a week-6 submission into the demo database with working
credentials but a failing SMTP send is reported as saved-with-warning, and
the new log sits in the store with token "tok2" bound and redeemable. -/
theorem C8_witness :
    (∃ msg,
      (log_submission_form demoDB "s1" 6 demoLog.content 300 "tok2" true true false).2.1
        = SubmitOutcome.savedWithEmailWarning msg) ∧
    (log_submission_form demoDB "s1" 6 demoLog.content 300 "tok2" true true
        false).2.2.logs.find? (fun l => l.id == demoDB.nextId)
      = some { newLogEntry demoDB demoStudent "s1" 6 (strip demoLog.content) 300 with
                 verification_token := some "tok2" } ∧
    (verify_log (log_submission_form demoDB "s1" 6 demoLog.content 300 "tok2" true true
        false).2.2 "tok2" "approved").1
      = some { newLogEntry demoDB demoStudent "s1" 6 (strip demoLog.content) 300 with
                 verification_token := some "tok2" } :=
  C8_mail_failure_no_rollback demoDB "s1" 6 demoLog.content 300 "tok2" true false
    demoStudent (by decide) (by decide) (Or.inr rfl) (by decide) (by decide)

/-- C9: every token produced by `generate_verification_token`
(`secrets.token_urlsafe(32)`, i.e. the base64url encoding of 32
cryptographically random bytes = 256 bits of entropy) is 43 characters long
(hence at least 32), uses only URL-safe characters, and the encoding is
injective on 32-byte inputs — so any collection of tokens generated from
distinct random byte strings, 10,000 of them included, contains no
duplicates. -/
theorem C9_token_length_charset_injective (bytes : List Nat)
    (h32 : bytes.length = 32) (hb : ∀ b ∈ bytes, b < 256) :
    (generate_verification_token bytes).length = 43 ∧
    32 ≤ (generate_verification_token bytes).length ∧
    (∀ c ∈ (generate_verification_token bytes).data, isUrlSafeChar c = true) ∧
    (∀ bytes2, bytes2.length = 32 → (∀ b ∈ bytes2, b < 256) →
      generate_verification_token bytes = generate_verification_token bytes2 →
      bytes = bytes2) := by
  have hlen : (generate_verification_token bytes).length = 43 := by
    show ((b64Sextets bytes).map sextetChar).length = 43
    rw [List.length_map, b64Sextets_length, h32]
    norm_num
  refine ⟨hlen, by omega, ?_, ?_⟩
  · intro c hc
    have hc1 : c ∈ (b64Sextets bytes).map sextetChar := hc
    rcases List.mem_map.mp hc1 with ⟨s, hs, rfl⟩
    exact isUrlSafe_sextetChar ⟨s, b64Sextets_lt bytes hb s hs⟩
  · intro bytes2 h32b hb2 heq
    have heq1 : (b64Sextets bytes).map sextetChar
        = (b64Sextets bytes2).map sextetChar := congrArg String.data heq
    have hs : b64Sextets bytes = b64Sextets bytes2 := by
      have h1 := map_sextetVal_sextetChar (b64Sextets bytes) (b64Sextets_lt bytes hb)
      have h2 := map_sextetVal_sextetChar (b64Sextets bytes2) (b64Sextets_lt bytes2 hb2)
      rw [← h1, ← h2, heq1]
    calc bytes = b64Decode (b64Sextets bytes) := (b64Decode_b64Sextets bytes hb).symm
      _ = b64Decode (b64Sextets bytes2) := by rw [hs]
      _ = bytes2 := b64Decode_b64Sextets bytes2 hb2

/-- C9 witness: the token generated from the all-zero 32-byte string has
length 43, is URL-safe throughout, and collides only with itself. -/
theorem C9_witness :
    (generate_verification_token (List.replicate 32 0)).length = 43 ∧
    32 ≤ (generate_verification_token (List.replicate 32 0)).length ∧
    (∀ c ∈ (generate_verification_token (List.replicate 32 0)).data,
      isUrlSafeChar c = true) ∧
    (∀ bytes2, bytes2.length = 32 → (∀ b ∈ bytes2, b < 256) →
      generate_verification_token (List.replicate 32 0)
        = generate_verification_token bytes2 →
      List.replicate 32 0 = bytes2) :=
  C9_token_length_charset_injective (List.replicate 32 0) (by decide) (by decide)

/-- C10: `update_log_verification_token` writes the token field of the
document matched by id unconditionally — whatever the field held before
(here: some live old token) is silently replaced, and when the old token was
bound only to that document, a redemption of the old token afterwards finds
nothing: the previously mailed links are invalidated. -/
theorem C10_unconditional_token_overwrite (db : DB) (log_id : Nat)
    (newTok oldTok : String) (l : LogEntry)
    (hfind : db.logs.find? (fun x => x.id == log_id) = some l)
    (hne : oldTok ≠ newTok)
    (hbound : ∀ x ∈ db.logs, x.verification_token = some oldTok → (x.id == log_id) = true)
    (hcount : db.logs.countP (fun x => x.id == log_id) ≤ 1) :
    (update_log_verification_token db log_id newTok).logs.find?
        (fun x => x.id == log_id)
      = some { l with verification_token := some newTok } ∧
    (verify_log (update_log_verification_token db log_id newTok) oldTok "approved").1
      = none := by
  constructor
  · have := find?_updateOne_self (fun x => x.id == log_id)
      (fun x => { x with verification_token := some newTok }) (fun x hx => hx) db.logs
    unfold update_log_verification_token
    simp only [this, hfind, Option.map_some]
    rfl
  · have hcleared : ∀ x ∈ (update_log_verification_token db log_id newTok).logs,
        (x.verification_token == some oldTok) = false := by
      refine updateOne_clears (fun x => x.id == log_id)
        (fun x => x.verification_token == some oldTok)
        (fun x => { x with verification_token := some newTok }) ?_ db.logs ?_ hcount
      · intro x
        simp only [beq_eq_false_iff_ne, ne_eq, Option.some.injEq]
        exact fun hEq => hne hEq.symm
      · intro x hx hq
        exact hbound x hx (beq_iff_eq.mp hq)
    have hnone : (update_log_verification_token db log_id newTok).logs.find?
        (fun x => x.verification_token == some oldTok) = none := by
      refine List.find?_eq_none.mpr ?_
      intro x hx
      simp only [hcleared x hx, Bool.false_eq_true, not_false_eq_true]
    unfold verify_log
    rw [hnone]

/-- C6: the claim states that at most one log exists per (student, week)
pair, a second submission for an occupied pair being rejected or surfaced
as a duplicate.  The only duplicate guard in the code is the submit
button's `disabled` flag, computed at render time from the week value of
the previous frame; the `if submit_button:` handler itself (lines 105-112)
never consults `existing_log`.  In the interaction below the render frame
shows week 6 (no log, button enabled); the user edits the week field to 5 —
already occupied — inside the form (form edits do not rerun the script) and
clicks.  The processing frame renders the duplicate warning for week 5 and
STILL runs `create_log`: afterwards two logs exist for (s1, week 5), so the
at-most-one invariant fails on the code even though the first log is not
overwritten. -/
theorem C6_duplicate_inserted :
    (submit_interaction demoDB "s1" 6 5 demoLog.content 300 "tok2" true true).1
      = some demoLog ∧
    (submit_interaction demoDB "s1" 6 5 demoLog.content 300 "tok2" true true).2.1
      = SubmitOutcome.submitted "Verification email sent to supervisor" ∧
    ((submit_interaction demoDB "s1" 6 5 demoLog.content 300 "tok2" true
        true).2.2.logs.countP
          (fun l => l.student_username == "s1" && l.week_number == 5)) = 2 ∧
    demoLog ∈ (submit_interaction demoDB "s1" 6 5 demoLog.content 300 "tok2" true
        true).2.2.logs := by
  decide

/-- C10 witness: rebinding the demo log (currently holding live token
"tok1") to "tok9" replaces the stored token, and the old mailed link
"tok1" now redeems to nothing. -/
theorem C10_witness :
    (update_log_verification_token demoDB 1 "tok9").logs.find? (fun x => x.id == 1)
      = some { demoLog with verification_token := some "tok9" } ∧
    (verify_log (update_log_verification_token demoDB 1 "tok9") "tok1" "approved").1
      = none :=
  C10_unconditional_token_overwrite demoDB 1 "tok9" "tok1" demoLog (by decide)
    (by decide) (by decide) (by decide)

end ProjectLog

